import Mathlib

/-
  Verification of the grubberize adapter layer (src/grub_file.c):
  a shallow embedding of the EFI <-> GRUB bridging functions and proofs
  about the read/clamp path, the error-clear protocol, the probe service,
  allocation rollback, the block-read shim and the offset accessors.

  Machine integers are modelled as Nat with explicit reduction modulo 2^64
  where the C code computes in 64-bit unsigned arithmetic (UINTN, UINT64,
  grub_off_t and grub_size_t are all 64-bit on the x86_64 EFI target;
  INTN / grub_ssize_t are signed 64-bit and are modelled as Int where the
  sign matters).
-/

namespace Grubberize

/-- 2^64, the modulus of the 64-bit unsigned arithmetic used throughout. -/
def U64 : Nat := 2 ^ 64

/-- EFI_SUCCESS status code (0). -/
def EFI_SUCCESS : Nat := 0

/-- EFI_OUT_OF_RESOURCES status code (error bit set, code 9). -/
def EFI_OUT_OF_RESOURCES : Nat := 2 ^ 63 + 9

/-- A collapsed host failure status used by the error translator model
(an EFI error code: high bit set). -/
def EFI_GRUB_FAILURE : Nat := 2 ^ 63 + 7

/-- GRUB_ERR_READ_ERROR, the dedicated read-error sentinel of the engine
error enumeration (grub/err.h, a header of the engine not present under
src/; value 14 in the enumeration, only its being nonzero matters here). -/
def GRUB_ERR_READ_ERROR : Nat := 14

/-- GRUB_DISK_SECTOR_SIZE: the fixed, hardcoded sector size (0x200) that
grub_disk_read uses instead of querying actual media geometry (constant
from the engine headers, not present under src/). -/
def GRUB_DISK_SECTOR_SIZE : Nat := 512

/-- FS_LOGLEVELINFO threshold referenced by GrubFSProbe; the FS_LOGLEVEL
enumeration lives in driver.h (repository code not under src/):
NONE=0, ERROR=1, WARNING=2, INFO=3, DEBUG=4, EXTRA=5. -/
def FS_LOGLEVEL_INFO : Nat := 3

/-- EFI_ERROR(Status): an EFI status is an error iff its high bit is set. -/
def EFI_ERROR (s : Nat) : Bool := decide (2 ^ 63 ≤ s)

/-- Modelled from the spec: GrubErrToEFIStatus, the ErrorTranslator.  Its
definition is in another file of the repository (declared extern in
src/grub_file.c); per the spec it is total and pure, maps "no error" to
success and every other code to a host failure status, the taxonomy
intentionally collapsed.  The claims below use it only abstractly. -/
def GrubErrToEFIStatus (err : Nat) : Nat :=
  if err = 0 then EFI_SUCCESS else EFI_GRUB_FAILURE

/-- The FileSession state of an open file: the fields of struct grub_file
that the adapter reads and writes (size and offset are grub_off_t, i.e.
64-bit unsigned), plus opaque identifiers for the bound device and driver
(f->device and f->fs, set by GrubCreateFile). -/
structure FileSession where
  size : Nat
  offset : Nat
  deviceId : Nat
  driverId : Nat
deriving Repr, DecidableEq

/-- GrubGetFileSize: returns (UINT64) f->size; the file is untouched
(state-passing style: the second component is the file after the call). -/
def GrubGetFileSize (f : FileSession) : Nat × FileSession :=
  (f.size, f)

/-- GrubGetFileOffset: returns (UINT64) f->offset; the file is untouched. -/
def GrubGetFileOffset (f : FileSession) : Nat × FileSession :=
  (f.offset, f)

/-- GrubSetFileOffset: f->offset = (grub_off_t) Offset, unconditionally,
with no bounds check (the cast from UINT64 to grub_off_t is value
preserving; reduction mod 2^64 makes the model total on Nat). -/
def GrubSetFileOffset (f : FileSession) (Offset : Nat) : FileSession :=
  { f with offset := Offset % U64 }

/-- The engine read operation p->read(f, buf, len): given the file, the
asked length and the last-error value it sees at call time, it yields a
grub_ssize_t result (negative on failure) and the last-error value it
leaves behind.  Left fully abstract: theorems quantify over it. -/
def EngineRead : Type :=
  FileSession → Nat → Nat → Int × Nat

/-- The clamping step of GrubRead:
  Remaining = f->size - f->offset  (uint64 subtraction, wrapping);
  if (*Len > Remaining) *Len = Remaining;
Remaining is declared INTN (signed), but the comparison against the
unsigned *Len converts it back to uint64, so the computation is exactly
a min against the wrapped unsigned difference. -/
def clampLen (f : FileSession) (Len : Nat) : Nat :=
  if Len > (f.size + U64 - f.offset) % U64 then (f.size + U64 - f.offset) % U64 else Len

/-- Everything observable about one GrubRead call: the returned EFI
status, the reported *Len, the file state after the call, the last-error
value after the call, plus two trace fields recording what the engine
call received: the length it was asked (askedLen) and the last-error
value in force when it was invoked (errnoAtEngineCall). -/
structure ReadOutcome where
  status : Nat
  actualLen : Nat
  file : FileSession
  errno : Nat
  askedLen : Nat
  errnoAtEngineCall : Nat
deriving Repr, DecidableEq

/-- GrubRead (src/grub_file.c:221-247).  Note: unlike GrubOpen, GrubDir,
GrubClose and GrubLabel, this function performs no `grub_errno = 0` step,
so the engine read is invoked with the inherited last-error value. -/
def GrubRead (engineRead : EngineRead) (f : FileSession) (Len : Nat) (errno : Nat) :
    ReadOutcome :=
  if (engineRead f (clampLen f Len) errno).1 < 0 then
    { status := GrubErrToEFIStatus (engineRead f (clampLen f Len) errno).2
      actualLen := 0
      file := f
      errno := (engineRead f (clampLen f Len) errno).2
      askedLen := clampLen f Len
      errnoAtEngineCall := errno }
  else
    { status := EFI_SUCCESS
      actualLen := (engineRead f (clampLen f Len) errno).1.toNat
      file := { f with offset := (f.offset + (engineRead f (clampLen f Len) errno).1.toNat) % U64 }
      errno := (engineRead f (clampLen f Len) errno).2
      askedLen := clampLen f Len
      errnoAtEngineCall := errno }

/-- Outcome of a status-returning bridged operation (Open, Dir, Label):
the translated status, the last-error value after the call, and a trace
field recording the last-error value the engine call received. -/
structure OpOutcome where
  status : Nat
  errno : Nat
  engineSawErrno : Nat
deriving Repr, DecidableEq

/-- Outcome of the VOID bridged operation Close. -/
structure CloseOutcome where
  errno : Nat
  engineSawErrno : Nat
deriving Repr, DecidableEq

/-- GrubOpen: grub_errno = 0; rc = p->open(f, path); translate rc.
The engine open is abstracted as a map from the last-error value it sees
to (rc, last-error it leaves). -/
def GrubOpen (engineOpen : Nat → Nat × Nat) (_errno : Nat) : OpOutcome :=
  { status := GrubErrToEFIStatus (engineOpen 0).1
    errno := (engineOpen 0).2
    engineSawErrno := 0 }

/-- GrubClose: grub_errno = 0; p->close(f); no status returned. -/
def GrubClose (engineClose : Nat → Nat) (_errno : Nat) : CloseOutcome :=
  { errno := engineClose 0
    engineSawErrno := 0 }

/-- GrubDir: grub_errno = 0; rc = p->dir(device, path, hook, data);
translate rc.  The hook and path are folded into the abstract engine. -/
def GrubDir (engineDir : Nat → Nat × Nat) (_errno : Nat) : OpOutcome :=
  { status := GrubErrToEFIStatus (engineDir 0).1
    errno := (engineDir 0).2
    engineSawErrno := 0 }

/-- GrubLabel: grub_errno = 0; rc = p->label(device, label); translate. -/
def GrubLabel (engineLabel : Nat → Nat × Nat) (_errno : Nat) : OpOutcome :=
  { status := GrubErrToEFIStatus (engineLabel 0).1
    errno := (engineLabel 0).2
    engineSawErrno := 0 }

/-- Everything observable about one GrubFSProbe call: the BOOLEAN result,
the last-error value after the call, whether the engine dir walk was
invoked, and whether the failure path logged. -/
structure ProbeOutcome where
  result : Bool
  errno : Nat
  engineInvoked : Bool
  logged : Bool
deriving Repr, DecidableEq

/-- GrubFSProbe (src/grub_file.c:270-289).  p is the singleton driver
slot (grub_fs_list, whose dir operation is abstracted as a map from the
last-error value it sees to (hook-fire count, last-error it leaves));
disk is device->disk, the field the precondition check tests.  On a
failed precondition it logs and returns FALSE without touching the
engine.  Otherwise grub_errno = 0, the walk runs, and if grub_errno is
set afterward the error is printed (which resets grub_errno) ONLY when
LogLevel >= FS_LOGLEVEL_INFO, and FALSE is returned; else TRUE. -/
def GrubFSProbe (p : Option (Nat → Nat × Nat)) (disk : Option Nat)
    (LogLevel : Nat) (errno : Nat) : ProbeOutcome :=
  match p, disk with
  | some dirFn, some _ =>
      if (dirFn 0).2 ≠ 0 then
        { result := false
          errno := if FS_LOGLEVEL_INFO ≤ LogLevel then 0 else (dirFn 0).2
          engineInvoked := true
          logged := decide (FS_LOGLEVEL_INFO ≤ LogLevel) }
      else
        { result := true
          errno := (dirFn 0).2
          engineInvoked := true
          logged := false }
  | _, _ =>
      { result := false
        errno := errno
        engineInvoked := false
        logged := true }

/-- A heap trace event: one pool allocation or release, identified by a
small id (0 = the outer allocation, 1 = the inner one). -/
inductive HeapEvent where
  | alloc : Nat → HeapEvent
  | free : Nat → HeapEvent
deriving Repr, DecidableEq

/-- The allocations still live after a trace of heap events. -/
def liveAfter (evs : List HeapEvent) : List Nat :=
  evs.foldl
    (fun live ev =>
      match ev with
      | HeapEvent.alloc i => live ++ [i]
      | HeapEvent.free i => live.erase i)
    []

/-- Outcome of GrubCreateFile: the EFI status, the produced handle
(outer wrapper id, inner grub_file id, and the zero-initialized
FileSession with device and fs bound), and the heap event trace. -/
structure CreateFileOutcome where
  status : Nat
  handle : Option (Nat × Nat × FileSession)
  events : List HeapEvent
deriving Repr, DecidableEq

/-- GrubCreateFile (src/grub_file.c:129-154).  The two AllocateZeroPool
calls are driven by the oracle booleans outerOk / innerOk.  If the outer
wrapper allocation fails, EFI_OUT_OF_RESOURCES with nothing allocated.
If the inner grub_file allocation fails, the outer wrapper is freed
before returning EFI_OUT_OF_RESOURCES.  On success the zeroed session is
bound to This->GrubDevice and grub_fs_list. -/
def GrubCreateFile (outerOk innerOk : Bool) (thisDevice driver : Nat) :
    CreateFileOutcome :=
  match outerOk, innerOk with
  | false, _ =>
      { status := EFI_OUT_OF_RESOURCES, handle := none, events := [] }
  | true, false =>
      { status := EFI_OUT_OF_RESOURCES, handle := none
        events := [HeapEvent.alloc 0, HeapEvent.free 0] }
  | true, true =>
      { status := EFI_SUCCESS
        handle := some (0, 1, { size := 0, offset := 0, deviceId := thisDevice, driverId := driver })
        events := [HeapEvent.alloc 0, HeapEvent.alloc 1] }

/-- grub_device_open (src/grub_file.c:77-98).  Two grub_zalloc calls
driven by the oracle booleans; if the inner disk allocation fails the
already allocated device is freed and NULL is returned.  On success the
handle carries (device id, disk id, the name stored into disk->data). -/
def grub_device_open (outerOk innerOk : Bool) (name : Nat) :
    Option (Nat × Nat × Nat) × List HeapEvent :=
  match outerOk, innerOk with
  | false, _ => (none, [])
  | true, false => (none, [HeapEvent.alloc 0, HeapEvent.free 0])
  | true, true => (some (0, 1, name), [HeapEvent.alloc 0, HeapEvent.alloc 1])

/-- Outcome of grub_disk_read: the grub_err_t result and the list of
block-transport reads issued, each recorded as
(media id, byte offset, length, buffer id). -/
structure DiskReadOutcome where
  err : Nat
  requests : List (Nat × Nat × Nat × Nat)
deriving Repr, DecidableEq

/-- grub_disk_read (src/grub_file.c:52-74).  The three null checks on
the EFI_FS back-reference and its DiskIo / BlockIo interfaces are the
booleans fsNull, diskIoNull, blockIoNull; ReadDisk is the abstract host
block transport (mediaId, byteOffset, length, buffer → EFI status).  The
byte offset sector * GRUB_DISK_SECTOR_SIZE + offset is computed in
64-bit unsigned arithmetic. -/
def grub_disk_read (fsNull diskIoNull blockIoNull : Bool) (mediaId : Nat)
    (ReadDisk : Nat → Nat → Nat → Nat → Nat) (sector offset size buf : Nat) :
    DiskReadOutcome :=
  if fsNull || diskIoNull || blockIoNull then
    { err := GRUB_ERR_READ_ERROR, requests := [] }
  else
    if EFI_ERROR (ReadDisk mediaId ((sector * GRUB_DISK_SECTOR_SIZE + offset) % U64) size buf) then
      { err := GRUB_ERR_READ_ERROR
        requests := [(mediaId, (sector * GRUB_DISK_SECTOR_SIZE + offset) % U64, size, buf)] }
    else
      { err := 0
        requests := [(mediaId, (sector * GRUB_DISK_SECTOR_SIZE + offset) % U64, size, buf)] }

/-- An engine read that succeeds, reads exactly the asked length and does
not touch the last-error value it inherited. -/
def engEcho : EngineRead :=
  fun _ l _ => ((l : Int), 0)

/-- An engine read that succeeds reading zero bytes and passes the
last-error value through unchanged. -/
def engKeep : EngineRead :=
  fun _ _ e => (0, e)

/-- An engine read that always fails, leaving last-error value 29. -/
def engFail : EngineRead :=
  fun _ _ _ => (-1, 29)

/- ------------------------------------------------------------------ -/
/- Helper lemmas                                                       -/
/- ------------------------------------------------------------------ -/

/-- For a well-formed session (offset ≤ size < 2^64) the wrapped uint64
difference size - offset is the plain difference. -/
theorem remaining_eq (f : FileSession) (hsize : f.size < U64) (hoff : f.offset ≤ f.size) :
    (f.size + U64 - f.offset) % U64 = f.size - f.offset := by
  have h1 : f.size + U64 - f.offset = (f.size - f.offset) + U64 := by omega
  rw [h1, Nat.add_mod_right]
  exact Nat.mod_eq_of_lt (by omega)

/-- For a well-formed session the clamped length is at most the
remaining bytes. -/
theorem clampLen_le (f : FileSession) (Len : Nat)
    (hsize : f.size < U64) (hoff : f.offset ≤ f.size) :
    clampLen f Len ≤ f.size - f.offset := by
  unfold clampLen
  rw [remaining_eq f hsize hoff]
  split <;> omega

/-- The length GrubRead asks the engine for is always the clamped one. -/
theorem grubRead_askedLen (engineRead : EngineRead) (f : FileSession) (Len errno : Nat) :
    (GrubRead engineRead f Len errno).askedLen = clampLen f Len := by
  unfold GrubRead
  split <;> rfl

/- ------------------------------------------------------------------ -/
/- Claim theorems                                                      -/
/- ------------------------------------------------------------------ -/

/-- C1: for every file handle whose FileSession satisfies
0 ≤ offset ≤ size (size a 64-bit value), and assuming the engine read
returns at most the length it was asked, GrubRead reports an actual
length of at most size − offset and leaves the new offset ≤ size,
regardless of how large the requested length is. -/
theorem c1_read_never_past_size (engineRead : EngineRead) (f : FileSession) (Len e : Nat)
    (hsize : f.size < U64) (hoff : f.offset ≤ f.size)
    (heng : ∀ fs l er, (engineRead fs l er).1 ≤ (l : Int)) :
    (GrubRead engineRead f Len e).actualLen ≤ f.size - f.offset ∧
    (GrubRead engineRead f Len e).file.offset ≤ f.size := by
  have hc := clampLen_le f Len hsize hoff
  by_cases hneg : (engineRead f (clampLen f Len) e).1 < 0
  · simp only [GrubRead, if_pos hneg]
    exact ⟨Nat.zero_le _, hoff⟩
  · simp only [GrubRead, if_neg hneg]
    have h2 := heng f (clampLen f Len) e
    have h1 : (engineRead f (clampLen f Len) e).1.toNat ≤ clampLen f Len := by omega
    refine ⟨le_trans h1 hc, ?_⟩
    have hfit : f.offset + (engineRead f (clampLen f Len) e).1.toNat < U64 := by omega
    simpa [Nat.mod_eq_of_lt hfit] using (by omega :
      f.offset + (engineRead f (clampLen f Len) e).1.toNat ≤ f.size)

/-- C1 witness (Scenario A): size 1000, offset 900, request 500 with an
engine that reads exactly what it is asked: the call returns at most 100
bytes and the offset stays at most 1000. -/
theorem c1_read_never_past_size_witness :
    (GrubRead engEcho ⟨1000, 900, 0, 0⟩ 500 0).actualLen ≤ 100 ∧
    (GrubRead engEcho ⟨1000, 900, 0, 0⟩ 500 0).file.offset ≤ 1000 := by
  have h := c1_read_never_past_size engEcho ⟨1000, 900, 0, 0⟩ 500 0
    (by norm_num [U64]) (by norm_num)
    (fun fs l er => by simp [engEcho])
  exact ⟨h.1, h.2⟩

/-- C2 counterexample: a session with offset 1 > size 0 (reachable via
the unchecked GrubSetFileOffset) and requested length 5.  The claim says
the engine must be asked for 0 bytes; the code computes the remaining
count in wrapping unsigned arithmetic with no clamp to ≥ 0, so the
engine is asked for 5 bytes. -/
theorem c2_counterexample :
    (FileSession.size ⟨0, 1, 0, 0⟩ < FileSession.offset ⟨0, 1, 0, 0⟩) ∧
    (GrubRead engEcho ⟨0, 1, 0, 0⟩ 5 0).askedLen = 5 := by
  constructor
  · decide
  · rw [grubRead_askedLen]
    decide

/-- C2 amended: the remaining count is size − offset in 64-bit unsigned
arithmetic with no clamp to ≥ 0: when offset ≤ size the engine is asked
for at most size − offset bytes, but when offset > size the difference
wraps to the huge value 2^64 − (offset − size) and any request at most
that bound is passed to the engine unreduced — in particular it is not
forced to 0. -/
theorem c2_remaining_unclamped (engineRead : EngineRead) (f : FileSession) (Len e : Nat)
    (hsize : f.size < U64) (hoffb : f.offset < U64) :
    (f.offset ≤ f.size → (GrubRead engineRead f Len e).askedLen ≤ f.size - f.offset) ∧
    (f.size < f.offset → Len ≤ U64 - (f.offset - f.size) →
      (GrubRead engineRead f Len e).askedLen = Len) := by
  rw [grubRead_askedLen]
  constructor
  · intro hoff
    exact clampLen_le f Len hsize hoff
  · intro hlt hLen
    unfold clampLen
    have hrem : (f.size + U64 - f.offset) % U64 = U64 - (f.offset - f.size) := by
      have h1 : f.size + U64 - f.offset = U64 - (f.offset - f.size) := by omega
      rw [h1]
      exact Nat.mod_eq_of_lt (by omega)
    rw [hrem]
    split <;> omega

/-- C2 amended witness: with size 0, offset 1 and request 5, the engine
is asked for exactly 5 bytes. -/
theorem c2_remaining_unclamped_witness :
    (GrubRead engEcho ⟨0, 1, 0, 0⟩ 5 0).askedLen = 5 :=
  (c2_remaining_unclamped engEcho ⟨0, 1, 0, 0⟩ 5 0
    (by norm_num [U64]) (by norm_num [U64])).2 (by norm_num) (by norm_num [U64])

/-- C3 counterexample: GrubRead does not clear grub_errno.  With a stale
last-error value 5 and an engine read that succeeds without touching the
indicator, the read completes with host success while the engine was
invoked with last-error 5 and the indicator still reads 5 afterwards. -/
theorem c3_counterexample :
    (GrubRead engKeep ⟨10, 0, 0, 0⟩ 4 5).status = EFI_SUCCESS ∧
    (GrubRead engKeep ⟨10, 0, 0, 0⟩ 4 5).errnoAtEngineCall = 5 ∧
    (GrubRead engKeep ⟨10, 0, 0, 0⟩ 4 5).errno = 5 := by
  decide

/-- C3 amended: GrubOpen, GrubClose, GrubDir and GrubLabel clear the
last-error indicator to 0 before invoking the engine, but GrubRead does
not: it invokes the engine read with whatever last-error value it
inherited, so a host-success Read can leave a stale nonzero value. -/
theorem c3_error_clear_except_read (engineOpen engineDir engineLabel : Nat → Nat × Nat)
    (engineClose : Nat → Nat) (engineRead : EngineRead) (f : FileSession) (Len e : Nat) :
    (GrubOpen engineOpen e).engineSawErrno = 0 ∧
    (GrubClose engineClose e).engineSawErrno = 0 ∧
    (GrubDir engineDir e).engineSawErrno = 0 ∧
    (GrubLabel engineLabel e).engineSawErrno = 0 ∧
    (GrubRead engineRead f Len e).errnoAtEngineCall = e := by
  refine ⟨rfl, rfl, rfl, rfl, ?_⟩
  unfold GrubRead
  split <;> rfl

/-- C4: when the engine read returns a negative result, GrubRead reports
an actual length of 0, returns the translation of the side-channel
last-error value, and leaves the whole FileSession unchanged. -/
theorem c4_error_path (engineRead : EngineRead) (f : FileSession) (Len e : Nat)
    (hneg : (engineRead f (clampLen f Len) e).1 < 0) :
    (GrubRead engineRead f Len e).actualLen = 0 ∧
    (GrubRead engineRead f Len e).status
      = GrubErrToEFIStatus (engineRead f (clampLen f Len) e).2 ∧
    (GrubRead engineRead f Len e).file = f := by
  simp only [GrubRead, if_pos hneg]
  exact ⟨trivial, trivial, trivial⟩

/-- C4 witness (Scenario B): an engine read that returns -1 leaving
last-error 29: the call reports 0 bytes, the translated error, and the
session ⟨7, 2, 0, 0⟩ unchanged. -/
theorem c4_error_path_witness :
    (GrubRead engFail ⟨7, 2, 0, 0⟩ 10 0).actualLen = 0 ∧
    (GrubRead engFail ⟨7, 2, 0, 0⟩ 10 0).status = GrubErrToEFIStatus 29 ∧
    (GrubRead engFail ⟨7, 2, 0, 0⟩ 10 0).file = ⟨7, 2, 0, 0⟩ :=
  c4_error_path engFail ⟨7, 2, 0, 0⟩ 10 0 (by decide)

/-- C5 counterexample: the offset field is 64-bit and the update
f->offset += len wraps.  With size 0 and offset 2^64 − 1 (reachable via
the unchecked GrubSetFileOffset), a well-behaved engine that reads the
single asked byte makes the read succeed with length 1 while the offset
wraps to 0, i.e. it DECREASES across a successful Read. -/
theorem c5_counterexample :
    (GrubRead engEcho ⟨0, U64 - 1, 0, 0⟩ 1 0).status = EFI_SUCCESS ∧
    (GrubRead engEcho ⟨0, U64 - 1, 0, 0⟩ 1 0).actualLen = 1 ∧
    (GrubRead engEcho ⟨0, U64 - 1, 0, 0⟩ 1 0).file.offset < U64 - 1 := by
  decide

/-- C5 amended: on a successful engine read GrubRead sets the offset to
(offset + count) mod 2^64 and reports exactly the engine count; whenever
offset + count < 2^64 (no wraparound — always the case when
offset ≤ size < 2^64 and the engine honours the asked length) the offset
never decreases, and a zero-byte success leaves the offset unchanged. -/
theorem c5_offset_advance (engineRead : EngineRead) (f : FileSession) (Len e : Nat)
    (hoffb : f.offset < U64)
    (hpos : 0 ≤ (engineRead f (clampLen f Len) e).1) :
    (GrubRead engineRead f Len e).file.offset
      = (f.offset + (engineRead f (clampLen f Len) e).1.toNat) % U64 ∧
    (GrubRead engineRead f Len e).actualLen = (engineRead f (clampLen f Len) e).1.toNat ∧
    (f.offset + (engineRead f (clampLen f Len) e).1.toNat < U64 →
      f.offset ≤ (GrubRead engineRead f Len e).file.offset) ∧
    ((engineRead f (clampLen f Len) e).1 = 0 →
      (GrubRead engineRead f Len e).file.offset = f.offset) := by
  have hnneg : ¬ (engineRead f (clampLen f Len) e).1 < 0 := not_lt.mpr hpos
  simp only [GrubRead, if_neg hnneg]
  refine ⟨trivial, trivial, ?_, ?_⟩
  · intro hfit
    rw [Nat.mod_eq_of_lt hfit]
    omega
  · intro h0
    rw [h0]
    simp [Nat.mod_eq_of_lt hoffb]

/-- C5 amended witness: session ⟨10, 3, 0, 0⟩, request 4, engine reading
exactly the asked length: the offset becomes 7 and 4 bytes are reported,
with the offset not decreasing. -/
theorem c5_offset_advance_witness :
    (GrubRead engEcho ⟨10, 3, 0, 0⟩ 4 0).file.offset = 7 ∧
    (GrubRead engEcho ⟨10, 3, 0, 0⟩ 4 0).actualLen = 4 ∧
    3 ≤ (GrubRead engEcho ⟨10, 3, 0, 0⟩ 4 0).file.offset := by
  have h := c5_offset_advance engEcho ⟨10, 3, 0, 0⟩ 4 0 (by norm_num [U64]) (by decide)
  refine ⟨?_, ?_, ?_⟩
  · rw [h.1]; decide
  · rw [h.2.1]; decide
  · exact h.2.2.1 (by decide)

/-- C6: with the driver registered and the device's disk present, probe
returns true iff the root walk leaves the last-error indicator clear
(the quantification over the abstract walk covers the empty-directory,
zero-callback case); and whenever the driver slot is empty or the disk
is null, probe logs and returns false without invoking the engine. -/
theorem c6_probe_iff (dirFn : Nat → Nat × Nat) (d LogLevel e : Nat) :
    ((GrubFSProbe (some dirFn) (some d) LogLevel e).result = true ↔ (dirFn 0).2 = 0) ∧
    (∀ (p : Option (Nat → Nat × Nat)) (disk : Option Nat),
      p = none ∨ disk = none →
        (GrubFSProbe p disk LogLevel e).result = false ∧
        (GrubFSProbe p disk LogLevel e).engineInvoked = false ∧
        (GrubFSProbe p disk LogLevel e).logged = true) := by
  constructor
  · by_cases h : (dirFn 0).2 = 0
    · simp [GrubFSProbe, h]
    · simp [GrubFSProbe, h]
  · rintro p disk (rfl | rfl)
    · cases disk <;> simp [GrubFSProbe]
    · cases p <;> simp [GrubFSProbe]

/-- C6 witness (Scenario C): a walk that fires the callback zero times
and leaves no error makes probe return true; an empty driver slot makes
probe return false without invoking the engine. -/
theorem c6_probe_iff_witness :
    (GrubFSProbe (some (fun e => (0, e))) (some 0) 1 0).result = true ∧
    (GrubFSProbe none (some 0) 1 0).result = false ∧
    (GrubFSProbe none (some 0) 1 0).engineInvoked = false := by
  have h := c6_probe_iff (fun e => (0, e)) 0 1 0
  exact ⟨h.1.mpr rfl, (h.2 none (some 0) (Or.inl rfl)).1,
    (h.2 none (some 0) (Or.inl rfl)).2.1⟩

/-- C7 counterexample: the error-consuming grub_print_error call is
guarded by LogLevel >= FS_LOGLEVEL_INFO.  At LogLevel 1 (the driver's
default FS_LOGLEVEL_ERROR), a walk that sets last-error 5 makes probe
return false with the indicator STILL reading 5 — the error is not
consumed, contradicting the claim. -/
theorem c7_counterexample :
    (GrubFSProbe (some (fun _ => (0, 5))) (some 0) 1 7).result = false ∧
    (GrubFSProbe (some (fun _ => (0, 5))) (some 0) 1 7).errno = 5 ∧
    (GrubFSProbe (some (fun _ => (0, 5))) (some 0) 1 7).logged = false := by
  decide

/-- C7 amended: whenever the walk leaves the last-error indicator set,
probe returns false; the logging step runs — and consumes the error,
leaving the indicator clear — only when LogLevel ≥ FS_LOGLEVEL_INFO; at
lower log levels the error value remains set after probe returns. -/
theorem c7_error_consumed_only_if_logged (dirFn : Nat → Nat × Nat) (d LogLevel e : Nat)
    (herr : (dirFn 0).2 ≠ 0) :
    (GrubFSProbe (some dirFn) (some d) LogLevel e).result = false ∧
    (FS_LOGLEVEL_INFO ≤ LogLevel →
      (GrubFSProbe (some dirFn) (some d) LogLevel e).errno = 0) ∧
    (LogLevel < FS_LOGLEVEL_INFO →
      (GrubFSProbe (some dirFn) (some d) LogLevel e).errno = (dirFn 0).2) := by
  refine ⟨by simp [GrubFSProbe, herr], ?_, ?_⟩
  · intro hlog
    simp [GrubFSProbe, herr, if_pos hlog]
  · intro hlow
    simp [GrubFSProbe, herr, if_neg (not_le.mpr hlow)]

/-- C7 amended witness: a walk leaving last-error 9 at LogLevel 3
(= FS_LOGLEVEL_INFO): probe returns false and the indicator is cleared
by the logging step. -/
theorem c7_error_consumed_only_if_logged_witness :
    (GrubFSProbe (some (fun _ => (0, 9))) (some 0) 3 0).result = false ∧
    (GrubFSProbe (some (fun _ => (0, 9))) (some 0) 3 0).errno = 0 := by
  have h := c7_error_consumed_only_if_logged (fun _ => (0, 9)) 0 3 0 (by decide)
  exact ⟨h.1, h.2.1 (by norm_num [FS_LOGLEVEL_INFO])⟩

/-- C8: both allocation paths roll back cleanly on partial failure: when
the outer allocation succeeds and the inner one fails, GrubCreateFile
frees the outer wrapper and returns EFI_OUT_OF_RESOURCES with no handle,
and grub_device_open frees the already allocated device and returns null
— in both cases the heap trace ends with no live allocation. -/
theorem c8_partial_failure_rollback (outerOk innerOk : Bool) (thisDevice driver name : Nat)
    (ho : outerOk = true) (hi : innerOk = false) :
    (GrubCreateFile outerOk innerOk thisDevice driver).status = EFI_OUT_OF_RESOURCES ∧
    (GrubCreateFile outerOk innerOk thisDevice driver).handle = none ∧
    liveAfter (GrubCreateFile outerOk innerOk thisDevice driver).events = [] ∧
    (grub_device_open outerOk innerOk name).1 = none ∧
    liveAfter (grub_device_open outerOk innerOk name).2 = [] := by
  subst ho
  subst hi
  exact ⟨rfl, rfl, rfl, rfl, rfl⟩

/-- C8 witness: concrete partial-failure run (outer ok, inner fails):
out-of-resources, no handle, no device, and an empty live-allocation
set for both traces. -/
theorem c8_partial_failure_rollback_witness :
    (GrubCreateFile true false 3 4).status = EFI_OUT_OF_RESOURCES ∧
    (GrubCreateFile true false 3 4).handle = none ∧
    liveAfter (GrubCreateFile true false 3 4).events = [] ∧
    (grub_device_open true false 5).1 = none ∧
    liveAfter (grub_device_open true false 5).2 = [] :=
  c8_partial_failure_rollback true false 3 4 5 rfl rfl

/-- C9: when the filesystem back-reference and both transport interfaces
are present, grub_disk_read issues exactly one block-transport read, at
byte offset sector * GRUB_DISK_SECTOR_SIZE + offset (computed in 64-bit
unsigned arithmetic) with the caller's length and buffer, and returns 0
on transport success and GRUB_ERR_READ_ERROR on transport failure; when
any of the three is null it returns GRUB_ERR_READ_ERROR without issuing
any read. -/
theorem c9_block_shim (fsNull diskIoNull blockIoNull : Bool) (mediaId : Nat)
    (ReadDisk : Nat → Nat → Nat → Nat → Nat) (sector offset size buf : Nat) :
    ((fsNull || diskIoNull || blockIoNull) = true →
      (grub_disk_read fsNull diskIoNull blockIoNull mediaId ReadDisk sector offset size buf).err
        = GRUB_ERR_READ_ERROR ∧
      (grub_disk_read fsNull diskIoNull blockIoNull mediaId ReadDisk sector offset size buf).requests
        = []) ∧
    ((fsNull || diskIoNull || blockIoNull) = false →
      (grub_disk_read fsNull diskIoNull blockIoNull mediaId ReadDisk sector offset size buf).requests
        = [(mediaId, (sector * GRUB_DISK_SECTOR_SIZE + offset) % U64, size, buf)] ∧
      ((grub_disk_read fsNull diskIoNull blockIoNull mediaId ReadDisk sector offset size buf).err = 0
        ↔ EFI_ERROR (ReadDisk mediaId ((sector * GRUB_DISK_SECTOR_SIZE + offset) % U64) size buf)
            = false) ∧
      ((grub_disk_read fsNull diskIoNull blockIoNull mediaId ReadDisk sector offset size buf).err ≠ 0 →
        (grub_disk_read fsNull diskIoNull blockIoNull mediaId ReadDisk sector offset size buf).err
          = GRUB_ERR_READ_ERROR)) := by
  constructor
  · intro h
    simp only [grub_disk_read, h, if_pos]
    exact ⟨trivial, trivial⟩
  · intro h
    simp only [grub_disk_read, h, Bool.false_eq_true, if_neg, not_false_eq_true]
    by_cases he : EFI_ERROR (ReadDisk mediaId ((sector * GRUB_DISK_SECTOR_SIZE + offset) % U64) size buf) = true
    · simp [he, GRUB_ERR_READ_ERROR]
    · simp [he]

/-- C9 witness: all references present, sector 3, in-sector offset 10,
a transport that succeeds: exactly one read at byte offset
3 * 512 + 10 with length 100 and buffer 1, and result 0. -/
theorem c9_block_shim_witness :
    (grub_disk_read false false false 5 (fun _ _ _ _ => 0) 3 10 100 1).requests
      = [(5, (3 * GRUB_DISK_SECTOR_SIZE + 10) % U64, 100, 1)] ∧
    (grub_disk_read false false false 5 (fun _ _ _ _ => 0) 3 10 100 1).err = 0 := by
  have h := (c9_block_shim false false false 5 (fun _ _ _ _ => 0) 3 10 100 1).2 rfl
  exact ⟨h.1, h.2.1.mpr (by decide)⟩

/-- C10: for every session and 64-bit value v, GrubSetFileOffset then
GrubGetFileOffset round-trips v unchanged; GrubSetFileOffset touches no
field but the offset, and the GrubGetFileOffset / GrubGetFileSize
accessors leave the session untouched. -/
theorem c10_offset_roundtrip (f : FileSession) (v : Nat) (hv : v < U64) :
    (GrubGetFileOffset (GrubSetFileOffset f v)).1 = v ∧
    (GrubSetFileOffset f v).size = f.size ∧
    (GrubSetFileOffset f v).deviceId = f.deviceId ∧
    (GrubSetFileOffset f v).driverId = f.driverId ∧
    (GrubGetFileOffset f).2 = f ∧
    (GrubGetFileSize f).2 = f := by
  refine ⟨?_, rfl, rfl, rfl, rfl, rfl⟩
  simp [GrubGetFileOffset, GrubSetFileOffset, Nat.mod_eq_of_lt hv]

/-- C10 witness: the session ⟨3, 4, 5, 6⟩ with offset set to 42:
the get returns 42 and every other field is untouched. -/
theorem c10_offset_roundtrip_witness :
    (GrubGetFileOffset (GrubSetFileOffset ⟨3, 4, 5, 6⟩ 42)).1 = 42 ∧
    (GrubSetFileOffset (⟨3, 4, 5, 6⟩ : FileSession) 42).size = 3 ∧
    (GrubSetFileOffset (⟨3, 4, 5, 6⟩ : FileSession) 42).deviceId = 5 ∧
    (GrubSetFileOffset (⟨3, 4, 5, 6⟩ : FileSession) 42).driverId = 6 ∧
    (GrubGetFileOffset ⟨3, 4, 5, 6⟩).2 = (⟨3, 4, 5, 6⟩ : FileSession) ∧
    (GrubGetFileSize ⟨3, 4, 5, 6⟩).2 = (⟨3, 4, 5, 6⟩ : FileSession) := by
  have h := c10_offset_roundtrip ⟨3, 4, 5, 6⟩ 42 (by norm_num [U64])
  exact ⟨h.1, h.2.1, h.2.2.1, h.2.2.2.1, h.2.2.2.2.1, h.2.2.2.2.2⟩

end Grubberize
